import Mathlib

/-!
Verification of the JSON2CV compilation-dispatch subsystem.

The development shallowly embeds the C++ sources:
  src/main/main.cpp, src/main/inilogger.hpp, src/main/inilogger.cpp,
  src/structs/CmdArgs.hpp.
The dispatcher (ThdDispatcher), argument ingester (ArgParser) and update
checker (DllUpdater) are declared and called from main.cpp but their
definitions are not part of the checked sources; they are modelled from
the specification where needed, and each such definition says so in its
doc comment.
-/

namespace JSON2CV

/-- Timestamp components as formatted by the clock/formatter; each field is
the already-rendered digit string that spdlog substitutes for the
corresponding conversion specifier. -/
structure Timestamp where
  year : String
  month : String
  day : String
  hour : String
  minute : String
  second : String
  millis : String
deriving DecidableEq

/-- spdlog severity levels, from spdlog/common.h. -/
inductive Level
  | trace
  | debug
  | info
  | warn
  | err
  | critical
  | off
deriving DecidableEq

/-- The text spdlog substitutes for the %l conversion specifier. -/
def levelStr : Level → String
  | .trace => "trace"
  | .debug => "debug"
  | .info => "info"
  | .warn => "warning"
  | .err => "error"
  | .critical => "critical"
  | .off => "off"

/-- One token of an spdlog output pattern: a literal character or a
conversion specifier. Only the specifiers appearing in the pattern set by
inilogger.cpp are distinguished. -/
inductive PatTok
  | lit (c : Char)
  | year
  | month
  | day
  | hour
  | minute
  | second
  | millis
  | lname
  | lvl
  | payload
deriving DecidableEq

/-- Parse an spdlog output pattern into tokens: a percent sign followed by
a letter is a conversion specifier, everything else is literal text. -/
def parsePat : List Char → List PatTok
  | [] => []
  | '%' :: c :: rest =>
    (match c with
     | 'Y' => PatTok.year
     | 'm' => PatTok.month
     | 'd' => PatTok.day
     | 'H' => PatTok.hour
     | 'M' => PatTok.minute
     | 'S' => PatTok.second
     | 'e' => PatTok.millis
     | 'n' => PatTok.lname
     | 'l' => PatTok.lvl
     | 'v' => PatTok.payload
     | c0 => PatTok.lit c0) :: parsePat rest
  | c :: rest => PatTok.lit c :: parsePat rest

/-- Substitution text for one pattern token. -/
def renderTok (ts : Timestamp) (nm : String) (lv : Level) (msg : String) : PatTok → String
  | .lit c => String.singleton c
  | .year => ts.year
  | .month => ts.month
  | .day => ts.day
  | .hour => ts.hour
  | .minute => ts.minute
  | .second => ts.second
  | .millis => ts.millis
  | .lname => nm
  | .lvl => levelStr lv
  | .payload => msg

/-- Render a tokenized pattern against a timestamp, logger name, level and
message: concatenation of the per-token substitutions. -/
def renderToks (toks : List PatTok) (ts : Timestamp) (nm : String) (lv : Level)
    (msg : String) : String :=
  match toks with
  | [] => ""
  | t :: rest => renderTok ts nm lv msg t ++ renderToks rest ts nm lv msg

/-- The output pattern inilogger.cpp installs on the logger. -/
def iniPattern : String := "[%Y-%m-%d %H:%M:%S.%e] [json2pdf] [%n] [%l] %v"

/-- spdlog's default output pattern, in force on a fresh logger before
set_pattern is called. -/
def defaultPattern : String := "[%Y-%m-%d %H:%M:%S.%e] [%n] [%l] %v"

/-- The timestamp text produced by the date/time specifiers of the pattern
in inilogger.cpp. -/
def tsRender (ts : Timestamp) : String :=
  ts.year ++ "-" ++ ts.month ++ "-" ++ ts.day ++ " " ++ ts.hour ++ ":" ++
    ts.minute ++ ":" ++ ts.second ++ "." ++ ts.millis

/-- One spdlog logger instance: an identity for the underlying allocation,
the logger name passed at construction, the current output pattern, and
the lines written to its sink so far. -/
structure SpdLogger where
  id : Nat
  name : String
  pattern : String
  lines : List String
deriving DecidableEq

/-- Construction of a fresh single-threaded stdout logger
(spdlog::stdout_logger_st): given name, default pattern, no output yet. -/
def stdout_logger_st (nm : String) (ident : Nat) : SpdLogger :=
  { id := ident, name := nm, pattern := defaultPattern, lines := [] }

/-- logger->set_pattern(p): replaces the output pattern. -/
def set_pattern (lg : SpdLogger) (p : String) : SpdLogger :=
  { lg with pattern := p }

/-- One call to IniLogger::log: its timestamp (read from the clock at
formatting time), level and message. -/
structure Call where
  ts : Timestamp
  lvl : Level
  msg : String
deriving DecidableEq

/-- logger->log(level, message): formats the message against the current
pattern and appends the line to the sink. -/
def spd_log (lg : SpdLogger) (c : Call) : SpdLogger :=
  { lg with
    lines := lg.lines ++ [renderToks (parsePat lg.pattern.data) c.ts lg.name c.lvl c.msg] }

/-- The static state of class IniLogger: the errored flag and the
mainLogger pointer, plus an allocation counter giving fresh identities to
logger instances. -/
structure IniState where
  errored : Bool
  mainLogger : Option SpdLogger
  nextId : Nat
deriving DecidableEq

/-- The in-class initializers of IniLogger: errored = false,
mainLogger = nullptr. -/
def initIniState : IniState := { errored := false, mainLogger := none, nextId := 0 }

/-- IniLogger::log, sequential semantics: if mainLogger is null, create a
stdout logger named "main" and install the output pattern; then log the
message through mainLogger. -/
def IniLogger_log (s : IniState) (c : Call) : IniState :=
  match s.mainLogger with
  | none =>
    let lg := set_pattern (stdout_logger_st "main" s.nextId) iniPattern
    { s with mainLogger := some (spd_log lg c), nextId := s.nextId + 1 }
  | some lg => { s with mainLogger := some (spd_log lg c) }

/-- Run a sequence of IniLogger::log calls from a given state. -/
def runCalls (s : IniState) (cs : List Call) : IniState :=
  cs.foldl IniLogger_log s

/-- The lines written to the sink so far. -/
def linesOf (s : IniState) : List String :=
  match s.mainLogger with
  | none => []
  | some lg => lg.lines

/-- The number of lines written to the sink so far. -/
def linesCount (s : IniState) : Nat := (linesOf s).length

/-- The identity of the currently installed logger instance, if any. -/
def loggerId (s : IniState) : Option Nat := s.mainLogger.map (fun lg => lg.id)

/-- The pattern of the currently installed logger instance, if any. -/
def loggerPattern (s : IniState) : Option String := s.mainLogger.map (fun lg => lg.pattern)

/-- The line IniLogger::log emits for one call, after the pattern of
inilogger.cpp is installed. -/
def fmtCall (c : Call) : String :=
  "[" ++ tsRender c.ts ++ "] [json2pdf] [main] [" ++ levelStr c.lvl ++ "] " ++ c.msg

/-- States whose installed logger, if any, is the "main" logger carrying
the pattern from inilogger.cpp. -/
def goodState (s : IniState) : Prop :=
  ∀ lg, s.mainLogger = some lg → lg.pattern = iniPattern ∧ lg.name = "main"

/-! ### Interleaved execution of IniLogger::log

The spec has worker threads call the logging sink concurrently. The body
of IniLogger::log is embedded statement by statement as atomic steps over
the shared static state, so that interleavings of two concurrent callers
can be examined. The shared pointer is an index into a heap of allocated
logger instances (each allocation extends the heap). -/

/-- The shared static state seen by all threads: the mainLogger pointer
(an index into the heap of allocated instances, none for nullptr) and the
instances allocated so far. -/
structure Shared where
  slot : Option Nat
  heap : List SpdLogger
deriving DecidableEq

/-- Update the instance at a heap index. -/
def modifyAt : List SpdLogger → Nat → (SpdLogger → SpdLogger) → List SpdLogger
  | [], _, _ => []
  | x :: xs, 0, f => f x :: xs
  | x :: xs, n + 1, f => x :: modifyAt xs n f

/-- Program counter of one thread executing the body of IniLogger::log:
the nullptr check, the assignment of a fresh instance to the static
pointer, the set_pattern call, the log call. -/
inductive TPC
  | check
  | store
  | setPat
  | doLog
  | done
deriving DecidableEq

/-- One atomic step of a thread running IniLogger::log with call c.
Each step re-reads the shared pointer exactly as the source does. -/
def threadStep (c : Call) : Shared × TPC → Shared × TPC
  | (sh, .check) => (sh, if sh.slot.isNone then .store else .doLog)
  | (sh, .store) =>
    ({ slot := some sh.heap.length,
       heap := sh.heap ++ [stdout_logger_st "main" sh.heap.length] }, .setPat)
  | (sh, .setPat) =>
    (match sh.slot with
     | some i => { sh with heap := modifyAt sh.heap i (fun lg => set_pattern lg iniPattern) }
     | none => sh, .doLog)
  | (sh, .doLog) =>
    (match sh.slot with
     | some i => { sh with heap := modifyAt sh.heap i (fun lg => spd_log lg c) }
     | none => sh, .done)
  | (sh, .done) => (sh, .done)

/-- Two threads, each making one IniLogger::log call, over the shared
static state. -/
structure Sys where
  shared : Shared
  pc1 : TPC
  pc2 : TPC
deriving DecidableEq

/-- Run one scheduled step: false steps thread 1, true steps thread 2. -/
def schedStep (c1 c2 : Call) (s : Sys) (who : Bool) : Sys :=
  if who then
    let p := threadStep c2 (s.shared, s.pc2)
    { shared := p.1, pc1 := s.pc1, pc2 := p.2 }
  else
    let p := threadStep c1 (s.shared, s.pc1)
    { shared := p.1, pc1 := p.2, pc2 := s.pc2 }

/-- Run a schedule (an interleaving of the two threads). -/
def runSched (c1 c2 : Call) (s : Sys) (sched : List Bool) : Sys :=
  sched.foldl (schedStep c1 c2) s

/-- Both threads about to enter IniLogger::log, mainLogger still null. -/
def initSys : Sys := { shared := { slot := none, heap := [] }, pc1 := .check, pc2 := .check }

/-- A schedule in which both threads pass the nullptr check before either
stores: thread 1 checks, thread 2 checks, stores, sets the pattern and
logs, then thread 1 stores (overwriting the pointer), sets the pattern
and logs. -/
def raceSched : List Bool := [false, true, true, true, true, false, false, false]

/-! ### Command-line arguments, from src/structs/CmdArgs.hpp

Each field of struct Args is a flag with a default or a kwarg of
std::optional type. An invocation is abstracted as the options actually
given on the command line; the argparse library fills each flag with true
when one of its names was given and its default otherwise, each kwarg
with the given value or nullopt, and reports a parse error only when a
kwarg whose C++ type is not std::optional (and that has no default) is
missing — struct Args declares no such kwarg. -/

/-- The options given on one command line: flag names given, key/value
options given, and multi-value options given. -/
structure Invocation where
  flags : List String
  kwargs : List (String × String)
  kwargsMulti : List (String × List String)
deriving DecidableEq

/-- The parsed value of a flag declared with the given names and default. -/
def flagVal (inv : Invocation) (names : List String) (dflt : Bool) : Bool :=
  if names.any (fun n => decide (n ∈ inv.flags)) then true else dflt

/-- The parsed value of a kwarg declared with the given names. -/
def kwargVal (inv : Invocation) (names : List String) : Option String :=
  (inv.kwargs.find? (fun p => decide (p.1 ∈ names))).map (fun p => p.2)

/-- The parsed value of a multi_argument kwarg declared with the given
names. -/
def kwargMultiVal (inv : Invocation) (names : List String) : Option (List String) :=
  (inv.kwargsMulti.find? (fun p => decide (p.1 ∈ names))).map (fun p => p.2)

/-- struct Args from CmdArgs.hpp: one field per declared option, with the
declared names and defaults. -/
structure Args where
  version : Bool
  update : Bool
  cvJson : Option String
  clJson : Option String
  varName : Option String
  varTitles : Option (List String)
  varAddress : Option String
  varMobile : Option String
  varEmail : Option String
  varLinkedin : Option String
  varGithub : Option String
  varColor : Option String
  varWebsite : Option String
  header : Bool
  footer : Bool
  spaced : Bool
  darken : Bool
  anon : Bool
  bold : Bool
  debug : Bool
  interrupt : Bool
deriving DecidableEq

/-- Parsing an invocation into struct Args, field by field as declared in
CmdArgs.hpp. -/
def parseArgs (inv : Invocation) : Args :=
  { version := flagVal inv ["v", "version"] false
    update := flagVal inv ["u", "update"] false
    cvJson := kwargVal inv ["cv", "cvjson"]
    clJson := kwargVal inv ["cl", "cljson"]
    varName := kwargVal inv ["n", "name"]
    varTitles := kwargMultiVal inv ["t", "titles"]
    varAddress := kwargVal inv ["a", "address"]
    varMobile := kwargVal inv ["m", "mobile"]
    varEmail := kwargVal inv ["e", "email"]
    varLinkedin := kwargVal inv ["l", "linkedin"]
    varGithub := kwargVal inv ["g", "github"]
    varColor := kwargVal inv ["c", "color"]
    varWebsite := kwargVal inv ["w", "website"]
    header := flagVal inv ["header"] true
    footer := flagVal inv ["footer"] true
    spaced := flagVal inv ["spaced"] true
    darken := flagVal inv ["darken"] true
    anon := flagVal inv ["anon"] false
    bold := flagVal inv ["bold"] false
    debug := flagVal inv ["debug"] false
    interrupt := flagVal inv ["interrupt"] false }

/-- The declared kwargs that parsing requires to be present: none, since
every kwarg in CmdArgs.hpp has std::optional type. -/
def requiredKwargNames : List (List String) := []

/-- Parsing with the argparse validation step: an error is reported only
when a required kwarg is absent. -/
def parseArgsE (inv : Invocation) : Except String Args :=
  if requiredKwargNames.all
      (fun ns => (kwargVal inv ns).isSome || (kwargMultiVal inv ns).isSome) then
    Except.ok (parseArgs inv)
  else
    Except.error "Required argument missing"

/-- The names of the boolean toggles whose defaults claim C4 is about. -/
def styleFlagNames : List String :=
  ["header", "footer", "spaced", "darken", "anon", "bold", "debug", "interrupt"]

/-- The invocation giving no options at all. -/
def emptyInvocation : Invocation := { flags := [], kwargs := [], kwargsMulti := [] }

/-- The invocation giving only the CV path option, omitting every other
document-source and personal-field option. -/
def invCvOnly : Invocation :=
  { flags := [], kwargs := [("cv", "cv.json")], kwargsMulti := [] }

/-! ### The compilation dispatcher

ThdDispatcher is declared and called from main.cpp but its definition is
not among the checked sources; the definitions below are modelled from
the specification (sections 3, 4.1, 5 and 7). -/

/-- Modelled from the spec: the two document kinds a Compilation Unit can
target (CV or cover letter). -/
inductive DocKind
  | cv
  | coverLetter
deriving DecidableEq

/-- Modelled from the spec: the lifecycle states of a Compilation Unit. -/
inductive Status
  | pending
  | running
  | succeeded
  | failed
  | interrupted
deriving DecidableEq

/-- Modelled from the spec: Succeeded, Failed and Interrupted are the
terminal states. -/
def Status.isTerminal : Status → Bool
  | .succeeded => true
  | .failed => true
  | .interrupted => true
  | .pending => false
  | .running => false

/-- Modelled from the spec: the allowed status transitions of a
Compilation Unit — Pending to Running when a worker picks it up, Running
to one of the terminal states when the backend finishes, fails, or
honors cancellation. -/
inductive StatusStep : Status → Status → Prop
  | start : StatusStep .pending .running
  | succeed : StatusStep .running .succeeded
  | fail : StatusStep .running .failed
  | cancel : StatusStep .running .interrupted

/-- Modelled from the spec: one Compilation Unit — document kind, JSON
source path, mutable status, and the captured error detail for the
Dispatch Result. -/
structure CompilationUnit where
  kind : DocKind
  sourcePath : String
  status : Status
  errorDetail : Option String
deriving DecidableEq

/-- Modelled from the spec: the outcome of one Render Backend invocation. -/
inductive BackendOutcome
  | success
  | failure (err : String)
deriving DecidableEq

/-- Modelled from the spec: the external world a run observes — which
paths resolve to readable files, what the Render Backend does for each
document kind, and whether the shared cancellation signal was raised. -/
structure Env where
  readable : String → Bool
  backend : DocKind → BackendOutcome
  cancelRequested : Bool

/-- Modelled from the spec: derivation of Compilation Units from a
Configuration — one Unit per present source path, CV first, each starting
Pending. -/
def deriveUnits (a : Args) : List CompilationUnit :=
  (match a.cvJson with
   | some p => [{ kind := .cv, sourcePath := p, status := .pending, errorDetail := none }]
   | none => []) ++
  (match a.clJson with
   | some p => [{ kind := .coverLetter, sourcePath := p, status := .pending, errorDetail := none }]
   | none => [])

/-- Modelled from the spec: execution of one Unit by a worker — a
ConfigurationError if the source path is unreadable; Interrupted when the
interrupt flag is set and the cancellation signal observed; otherwise the
backend outcome decides Succeeded or Failed, capturing the error detail. -/
def runUnit (a : Args) (e : Env) (u : CompilationUnit) : CompilationUnit :=
  if e.readable u.sourcePath = false then
    { u with status := .failed, errorDetail := some "ConfigurationError" }
  else if a.interrupt && e.cancelRequested then
    { u with status := .interrupted, errorDetail := none }
  else
    match e.backend u.kind with
    | .success => { u with status := .succeeded, errorDetail := none }
    | .failure m => { u with status := .failed, errorDetail := some m }

/-- Modelled from the spec: what join does to one submitted Unit — a Unit
already terminal is left untouched, a non-terminal Unit is waited on
until its worker finishes it. -/
def joinUnit (a : Args) (e : Env) (u : CompilationUnit) : CompilationUnit :=
  if u.status.isTerminal then u else runUnit a e u

/-- Modelled from the spec: the dispatcher state — the Units submitted so
far. -/
structure DispState where
  units : List CompilationUnit
deriving DecidableEq

/-- The dispatcher state before any dispatch. -/
def emptyDisp : DispState := { units := [] }

/-- Modelled from the spec: ThdDispatcher::dispatch — derives Units from
the Configuration and submits them, non-blocking. -/
def dispatch (a : Args) (s : DispState) : DispState :=
  { units := s.units ++ deriveUnits a }

/-- Modelled from the spec: ThdDispatcher::join — blocks until every
submitted Unit is terminal. -/
def joinAll (a : Args) (e : Env) (s : DispState) : DispState :=
  { units := s.units.map (joinUnit a e) }

/-- Modelled from the spec: the Dispatch Result — Unit identity, terminal
status, optional error detail. -/
def dispatchResult (s : DispState) : List (DocKind × Status × Option String) :=
  s.units.map (fun u => (u.kind, u.status, u.errorDetail))

/-! ### The program, from src/main/main.cpp -/

/-- The observable phases main runs through, in order. -/
inductive Event
  | logInit
  | argsInit
  | updateCheck
  | dispatchCall
  | joinCall
  | cleanCall
deriving DecidableEq

/-- Process state threaded through main: the logger statics, the
dispatcher state, and the trace of phases performed so far. -/
structure ProcState where
  logState : IniState
  disp : DispState
  events : List Event
deriving DecidableEq

/-- main from main.cpp: log "Initialized logger", ArgParser::init,
DllUpdater::update, ThdDispatcher::dispatch, ThdDispatcher::join,
ArgParser::clean, return 0. The argument ingester and update checker are
external collaborators recorded only as trace events. -/
def mainRun (a : Args) (e : Env) (ts : Timestamp) : ProcState × Int :=
  let s0 : ProcState := { logState := initIniState, disp := emptyDisp, events := [] }
  let s1 : ProcState :=
    { s0 with
      logState := IniLogger_log s0.logState { ts := ts, lvl := .info, msg := "Initialized logger" }
      events := s0.events ++ [.logInit] }
  let s2 : ProcState := { s1 with events := s1.events ++ [.argsInit] }
  let s3 : ProcState := { s2 with events := s2.events ++ [.updateCheck] }
  let s4 : ProcState := { s3 with disp := dispatch a s3.disp, events := s3.events ++ [.dispatchCall] }
  let s5 : ProcState := { s4 with disp := joinAll a e s4.disp, events := s4.events ++ [.joinCall] }
  let s6 : ProcState := { s5 with events := s5.events ++ [.cleanCall] }
  (s6, 0)

/-- A concrete timestamp used to instantiate theorems. -/
def tsA : Timestamp :=
  { year := "2024", month := "01", day := "02", hour := "03", minute := "04",
    second := "05", millis := "006" }

/-- A concrete logging call used to instantiate theorems. -/
def callA : Call := { ts := tsA, lvl := .info, msg := "hello" }

/-- A second concrete logging call. -/
def callB : Call := { ts := tsA, lvl := .warn, msg := "world" }

/-- A concrete configuration whose CV path is "missing.json" and whose
cover-letter path is absent. -/
def argsMissing : Args :=
  parseArgs { flags := [], kwargs := [("cv", "missing.json")], kwargsMulti := [] }

/-- A concrete environment in which no path is readable. -/
def envUnreadable : Env :=
  { readable := fun _ => false, backend := fun _ => .success, cancelRequested := false }

/-- A concrete environment in which every path is readable and the
backend succeeds. -/
def envAllOk : Env :=
  { readable := fun _ => true, backend := fun _ => .success, cancelRequested := false }

/-- A concrete already-terminal Compilation Unit. -/
def unitDone : CompilationUnit :=
  { kind := .cv, sourcePath := "cv.json", status := .succeeded, errorDetail := none }

/-! ### Theorems -/

theorem renderToks_iniPattern (ts : Timestamp) (lv : Level) (msg : String) :
    renderToks (parsePat iniPattern.data) ts "main" lv msg =
      "[" ++ tsRender ts ++ "] [json2pdf] [main] [" ++ levelStr lv ++ "] " ++ msg := by
  have h : parsePat iniPattern.data =
      [PatTok.lit '[', PatTok.year, PatTok.lit '-', PatTok.month, PatTok.lit '-',
       PatTok.day, PatTok.lit ' ', PatTok.hour, PatTok.lit ':', PatTok.minute,
       PatTok.lit ':', PatTok.second, PatTok.lit '.', PatTok.millis,
       PatTok.lit ']', PatTok.lit ' ', PatTok.lit '[', PatTok.lit 'j',
       PatTok.lit 's', PatTok.lit 'o', PatTok.lit 'n', PatTok.lit '2',
       PatTok.lit 'p', PatTok.lit 'd', PatTok.lit 'f', PatTok.lit ']',
       PatTok.lit ' ', PatTok.lit '[', PatTok.lname, PatTok.lit ']',
       PatTok.lit ' ', PatTok.lit '[', PatTok.lvl, PatTok.lit ']',
       PatTok.lit ' ', PatTok.payload] := by decide
  rw [h]
  simp only [renderToks, renderTok, tsRender]
  apply String.ext
  simp [String.singleton, tsRender]

theorem IniLogger_log_good (s : IniState) (c : Call) (h : goodState s) :
    goodState (IniLogger_log s c) := by
  intro lg hlg
  unfold IniLogger_log at hlg
  cases hml : s.mainLogger with
  | none =>
    rw [hml] at hlg
    simp only [Option.some.injEq] at hlg
    subst hlg
    exact ⟨rfl, rfl⟩
  | some lg0 =>
    rw [hml] at hlg
    simp only [Option.some.injEq] at hlg
    subst hlg
    exact h lg0 hml

theorem IniLogger_log_lines (s : IniState) (c : Call) (h : goodState s) :
    linesOf (IniLogger_log s c) = linesOf s ++ [fmtCall c] := by
  unfold IniLogger_log linesOf
  cases hml : s.mainLogger with
  | none =>
    simp only [spd_log, set_pattern, stdout_logger_st, List.nil_append]
    rw [renderToks_iniPattern]
    rfl
  | some lg0 =>
    obtain ⟨hp, hn⟩ := h lg0 hml
    simp only [spd_log, hp, hn]
    rw [renderToks_iniPattern]
    rfl

theorem runCalls_lines (cs : List Call) (s : IniState) (h : goodState s) :
    linesOf (runCalls s cs) = linesOf s ++ cs.map fmtCall := by
  induction cs generalizing s with
  | nil => simp [runCalls]
  | cons c cs ih =>
    have h1 := IniLogger_log_good s c h
    rw [show runCalls s (c :: cs) = runCalls (IniLogger_log s c) cs from rfl,
      ih (IniLogger_log s c) h1, IniLogger_log_lines s c h]
    simp

/-- Claim C3: every line emitted through the Logging Sink has the fixed
format [timestamp] [app-name] [logger-name] [level] message — for any
sequence of calls from the program's initial logger state, the emitted
lines are exactly the messages wrapped in that bracket format, with
json2pdf as the app name and main as the logger name. -/
theorem log_line_format (cs : List Call) :
    linesOf (runCalls initIniState cs) =
      cs.map (fun c =>
        "[" ++ tsRender c.ts ++ "] [json2pdf] [main] [" ++ levelStr c.lvl ++ "] " ++ c.msg) := by
  have hg : goodState initIniState := by
    intro lg hlg
    simp [initIniState] at hlg
  have h := runCalls_lines cs initIniState hg
  rw [h]
  simp [linesOf, initIniState, fmtCall]

/-- Claim C9: the logger instance is created and its pattern set during
the first call only — the first call from the initial state installs the
"main" logger with the pattern from inilogger.cpp — and every later call
(from any state whose instance pointer is already set) allocates nothing
new, keeps the same instance identity and pattern, appends exactly one
line, and leaves the pointer non-null. -/
theorem iniLogger_first_call_inits (s : IniState) (c c0 : Call)
    (h : s.mainLogger.isSome = true) :
    (IniLogger_log initIniState c0).mainLogger =
      some { id := 0, name := "main", pattern := iniPattern, lines := [fmtCall c0] }
    ∧ (IniLogger_log s c).nextId = s.nextId
    ∧ loggerId (IniLogger_log s c) = loggerId s
    ∧ loggerPattern (IniLogger_log s c) = loggerPattern s
    ∧ (IniLogger_log s c).mainLogger.isSome = true
    ∧ linesCount (IniLogger_log s c) = linesCount s + 1 := by
  cases hml : s.mainLogger with
  | none => rw [hml] at h; simp at h
  | some lg =>
    refine ⟨?_, ?_, ?_, ?_, ?_, ?_⟩
    · simp only [IniLogger_log, initIniState, spd_log, set_pattern, stdout_logger_st,
        List.nil_append, Option.some.injEq]
      rw [renderToks_iniPattern]
      rfl
    · unfold IniLogger_log
      rw [hml]
    · unfold IniLogger_log loggerId
      rw [hml]
      rfl
    · unfold IniLogger_log loggerPattern
      rw [hml]
      rfl
    · unfold IniLogger_log
      rw [hml]
      rfl
    · unfold IniLogger_log linesCount linesOf
      rw [hml]
      simp [spd_log]

/-- Witness for claim C9 at a concrete post-first-call state. -/
theorem iniLogger_first_call_inits_witness :
    (runCalls initIniState [callA]).mainLogger.isSome = true
    ∧ ((IniLogger_log initIniState callA).mainLogger =
        some { id := 0, name := "main", pattern := iniPattern, lines := [fmtCall callA] }
      ∧ (IniLogger_log (runCalls initIniState [callA]) callB).nextId =
          (runCalls initIniState [callA]).nextId
      ∧ loggerId (IniLogger_log (runCalls initIniState [callA]) callB) =
          loggerId (runCalls initIniState [callA])
      ∧ loggerPattern (IniLogger_log (runCalls initIniState [callA]) callB) =
          loggerPattern (runCalls initIniState [callA])
      ∧ (IniLogger_log (runCalls initIniState [callA]) callB).mainLogger.isSome = true
      ∧ linesCount (IniLogger_log (runCalls initIniState [callA]) callB) =
          linesCount (runCalls initIniState [callA]) + 1) :=
  ⟨by decide, iniLogger_first_call_inits (runCalls initIniState [callA]) callB callA (by decide)⟩

/-- Claim C2 counterexample: IniLogger::log guards initialization only by
an unsynchronized nullptr check, so under the interleaving raceSched two
concurrent first callers both pass the check and both initialize the
sink. Two logger instances get allocated, the static pointer ends on the
second one, and the line written by the thread that initialized first
sits in the abandoned first instance — refuting, at this concrete
interleaving, that the sink is initialized exactly once across threads
with every caller reusing one instance. -/
theorem iniLogger_race_two_inits :
    (runSched callA callB initSys raceSched).shared.heap.length = 2
    ∧ (runSched callA callB initSys raceSched).shared.slot = some 1
    ∧ ((runSched callA callB initSys raceSched).shared.heap.getD 0
        (stdout_logger_st "main" 0)).lines.length = 1
    ∧ (runSched callA callB initSys raceSched).pc1 = TPC.done
    ∧ (runSched callA callB initSys raceSched).pc2 = TPC.done :=
  ⟨rfl, rfl, rfl, rfl, rfl⟩

theorem runCalls_inited (cs : List Call) (s : IniState)
    (h1 : s.nextId = 1) (h2 : loggerId s = some 0) :
    (runCalls s cs).nextId = 1 ∧ loggerId (runCalls s cs) = some 0 := by
  induction cs generalizing s with
  | nil => exact ⟨h1, h2⟩
  | cons c cs ih =>
    rw [show runCalls s (c :: cs) = runCalls (IniLogger_log s c) cs from rfl]
    cases hml : s.mainLogger with
    | none => rw [loggerId, hml] at h2; simp at h2
    | some lg =>
      apply ih
      · unfold IniLogger_log
        rw [hml]
        exact h1
      · unfold IniLogger_log loggerId
        rw [hml]
        rw [loggerId, hml] at h2
        simpa [spd_log] using h2

/-- Claim C2 amended: when calls to the Logging Sink do not overlap —
each call completes before the next begins, as in the program where the
first call happens on the main thread before any dispatch — the sink is
lazily initialized exactly once by the first call and every subsequent
call reuses that same instance: after any nonempty sequence of
sequential calls exactly one instance has been allocated and it is still
the installed one. -/
theorem iniLogger_sequential_once (cs : List Call) (h : cs ≠ []) :
    (runCalls initIniState cs).nextId = 1
    ∧ loggerId (runCalls initIniState cs) = some 0 := by
  cases cs with
  | nil => exact absurd rfl h
  | cons c cs =>
    rw [show runCalls initIniState (c :: cs) = runCalls (IniLogger_log initIniState c) cs from rfl]
    exact runCalls_inited cs (IniLogger_log initIniState c) rfl rfl

/-- Witness for claim C2 (amended) at a concrete call sequence. -/
theorem iniLogger_sequential_once_witness :
    ([callA, callB] ≠ ([] : List Call))
    ∧ (runCalls initIniState [callA, callB]).nextId = 1
    ∧ loggerId (runCalls initIniState [callA, callB]) = some 0 := by
  refine ⟨by decide, ?_⟩
  exact iniLogger_sequential_once [callA, callB] (by decide)

theorem flagVal_default (inv : Invocation) (names : List String) (d : Bool)
    (h : ∀ n ∈ names, n ∉ inv.flags) : flagVal inv names d = d := by
  unfold flagVal
  rw [if_neg]
  intro hcond
  rw [List.any_eq_true] at hcond
  obtain ⟨x, hx, hdx⟩ := hcond
  exact h x hx (of_decide_eq_true hdx)

/-- Claim C4: with none of the header/footer/spaced/darken/anon/bold/
debug/interrupt flags given, the parsed Configuration has header, footer,
spaced and darken true and anon, bold, debug and interrupt false. -/
theorem default_flag_values (inv : Invocation)
    (h : ∀ f ∈ styleFlagNames, f ∉ inv.flags) :
    (parseArgs inv).header = true ∧ (parseArgs inv).footer = true
    ∧ (parseArgs inv).spaced = true ∧ (parseArgs inv).darken = true
    ∧ (parseArgs inv).anon = false ∧ (parseArgs inv).bold = false
    ∧ (parseArgs inv).debug = false ∧ (parseArgs inv).interrupt = false := by
  have key : ∀ (nm : String) (d : Bool), nm ∈ styleFlagNames → flagVal inv [nm] d = d := by
    intro nm d hnm
    apply flagVal_default
    intro n hn
    rw [List.mem_singleton] at hn
    rw [hn]
    exact h nm hnm
  exact ⟨key "header" true (by decide), key "footer" true (by decide),
    key "spaced" true (by decide), key "darken" true (by decide),
    key "anon" false (by decide), key "bold" false (by decide),
    key "debug" false (by decide), key "interrupt" false (by decide)⟩

/-- Witness for claim C4 at the invocation giving no options. -/
theorem default_flag_values_witness :
    (parseArgs emptyInvocation).header = true ∧ (parseArgs emptyInvocation).footer = true
    ∧ (parseArgs emptyInvocation).spaced = true ∧ (parseArgs emptyInvocation).darken = true
    ∧ (parseArgs emptyInvocation).anon = false ∧ (parseArgs emptyInvocation).bold = false
    ∧ (parseArgs emptyInvocation).debug = false
    ∧ (parseArgs emptyInvocation).interrupt = false :=
  default_flag_values emptyInvocation (by intro f hf hmem; simp [emptyInvocation] at hmem)

theorem kwargVal_absent (inv : Invocation) (names : List String)
    (h : ∀ p ∈ inv.kwargs, p.1 ∉ names) :
    kwargVal inv names = none := by
  unfold kwargVal
  have h1 : inv.kwargs.find? (fun p => decide (p.1 ∈ names)) = none := by
    rw [List.find?_eq_none]
    intro p hp hdec
    exact h p hp (of_decide_eq_true hdec)
  rw [h1]
  rfl

theorem kwargMultiVal_absent (inv : Invocation) (names : List String)
    (h : ∀ p ∈ inv.kwargsMulti, p.1 ∉ names) :
    kwargMultiVal inv names = none := by
  unfold kwargMultiVal
  have h1 : inv.kwargsMulti.find? (fun p => decide (p.1 ∈ names)) = none := by
    rw [List.find?_eq_none]
    intro p hp hdec
    exact h p hp (of_decide_eq_true hdec)
  rw [h1]
  rfl

/-- Claim C10: every document source path and personal-field option is
optional — every invocation parses without error, and each of these
options that the invocation omits (whatever else it gives) parses to an
empty optional. -/
theorem optional_options_absent (inv : Invocation) :
    parseArgsE inv = Except.ok (parseArgs inv)
    ∧ ((∀ p ∈ inv.kwargs, p.1 ∉ ["cv", "cvjson"]) → (parseArgs inv).cvJson = none)
    ∧ ((∀ p ∈ inv.kwargs, p.1 ∉ ["cl", "cljson"]) → (parseArgs inv).clJson = none)
    ∧ ((∀ p ∈ inv.kwargs, p.1 ∉ ["n", "name"]) → (parseArgs inv).varName = none)
    ∧ ((∀ p ∈ inv.kwargsMulti, p.1 ∉ ["t", "titles"]) → (parseArgs inv).varTitles = none)
    ∧ ((∀ p ∈ inv.kwargs, p.1 ∉ ["a", "address"]) → (parseArgs inv).varAddress = none)
    ∧ ((∀ p ∈ inv.kwargs, p.1 ∉ ["m", "mobile"]) → (parseArgs inv).varMobile = none)
    ∧ ((∀ p ∈ inv.kwargs, p.1 ∉ ["e", "email"]) → (parseArgs inv).varEmail = none)
    ∧ ((∀ p ∈ inv.kwargs, p.1 ∉ ["l", "linkedin"]) → (parseArgs inv).varLinkedin = none)
    ∧ ((∀ p ∈ inv.kwargs, p.1 ∉ ["g", "github"]) → (parseArgs inv).varGithub = none)
    ∧ ((∀ p ∈ inv.kwargs, p.1 ∉ ["c", "color"]) → (parseArgs inv).varColor = none)
    ∧ ((∀ p ∈ inv.kwargs, p.1 ∉ ["w", "website"]) → (parseArgs inv).varWebsite = none) :=
  ⟨rfl,
    fun h => kwargVal_absent inv ["cv", "cvjson"] h,
    fun h => kwargVal_absent inv ["cl", "cljson"] h,
    fun h => kwargVal_absent inv ["n", "name"] h,
    fun h => kwargMultiVal_absent inv ["t", "titles"] h,
    fun h => kwargVal_absent inv ["a", "address"] h,
    fun h => kwargVal_absent inv ["m", "mobile"] h,
    fun h => kwargVal_absent inv ["e", "email"] h,
    fun h => kwargVal_absent inv ["l", "linkedin"] h,
    fun h => kwargVal_absent inv ["g", "github"] h,
    fun h => kwargVal_absent inv ["c", "color"] h,
    fun h => kwargVal_absent inv ["w", "website"] h⟩

/-- Witness for claim C10 at an invocation that gives the CV path and
omits every other document-source and personal-field option: parsing
succeeds, the given option is filled, and each omitted field is an empty
optional. -/
theorem optional_options_absent_witness :
    parseArgsE invCvOnly = Except.ok (parseArgs invCvOnly)
    ∧ (parseArgs invCvOnly).cvJson = some "cv.json"
    ∧ (parseArgs invCvOnly).clJson = none
    ∧ (parseArgs invCvOnly).varName = none
    ∧ (parseArgs invCvOnly).varTitles = none
    ∧ (parseArgs invCvOnly).varAddress = none
    ∧ (parseArgs invCvOnly).varMobile = none
    ∧ (parseArgs invCvOnly).varEmail = none
    ∧ (parseArgs invCvOnly).varLinkedin = none
    ∧ (parseArgs invCvOnly).varGithub = none
    ∧ (parseArgs invCvOnly).varColor = none
    ∧ (parseArgs invCvOnly).varWebsite = none := by
  obtain ⟨h0, hcv, hcl, hn, ht, ha, hmo, he, hl, hg, hc, hw⟩ :=
    optional_options_absent invCvOnly
  have hk : ∀ (names : List String), ("cv" ∈ names → False) →
      ∀ p ∈ invCvOnly.kwargs, p.1 ∉ names := by
    intro names hno p hp hmem
    simp only [invCvOnly, List.mem_singleton] at hp
    rw [hp] at hmem
    exact hno hmem
  have hmEmpty : ∀ p ∈ invCvOnly.kwargsMulti, p.1 ∉ (["t", "titles"] : List String) := by
    intro p hp
    simp [invCvOnly] at hp
  exact ⟨h0, rfl, hcl (hk _ (by decide)), hn (hk _ (by decide)), ht hmEmpty,
    ha (hk _ (by decide)), hmo (hk _ (by decide)), he (hk _ (by decide)),
    hl (hk _ (by decide)), hg (hk _ (by decide)), hc (hk _ (by decide)),
    hw (hk _ (by decide))⟩

theorem runUnit_terminal (a : Args) (e : Env) (u : CompilationUnit) :
    (runUnit a e u).status.isTerminal = true := by
  unfold runUnit
  split
  · rfl
  · split
    · rfl
    · cases e.backend u.kind <;> rfl

theorem joinUnit_terminal (a : Args) (e : Env) (u : CompilationUnit) :
    (joinUnit a e u).status.isTerminal = true := by
  unfold joinUnit
  split
  · assumption
  · exact runUnit_terminal a e u

/-- Claim C1 counterexample: a run whose Configuration names the CV source
"missing.json" in an environment where no path is readable ends with its
single Unit Failed with a ConfigurationError, yet the process exit code
is 0 — main.cpp returns 0 without consulting the Dispatch Result. -/
theorem exit_code_ignores_failures :
    dispatchResult (mainRun argsMissing envUnreadable tsA).1.disp =
      [(DocKind.cv, Status.failed, some "ConfigurationError")]
    ∧ (mainRun argsMissing envUnreadable tsA).2 = 0 :=
  ⟨rfl, rfl⟩

/-- Claim C1 amended: the process exit code is 0 in every run that
reaches the end of main, whatever terminal states the submitted Units
reach — main.cpp unconditionally returns 0 and, per the spec, join
surfaces per-Unit failures only through the Dispatch Result. -/
theorem exit_code_always_zero (a : Args) (e : Env) (ts : Timestamp) :
    (mainRun a e ts).2 = 0 := rfl

/-- Claim C5: a Configuration with both source paths absent derives zero
Compilation Units; dispatch followed by join leaves the Dispatch Result
empty, no error is produced, and the process exits with code 0. -/
theorem noop_dispatch_empty_result (a : Args) (e : Env) (ts : Timestamp)
    (hcv : a.cvJson = none) (hcl : a.clJson = none) :
    deriveUnits a = []
    ∧ (mainRun a e ts).1.disp.units = []
    ∧ dispatchResult (mainRun a e ts).1.disp = []
    ∧ (mainRun a e ts).2 = 0 := by
  have hd : deriveUnits a = [] := by
    unfold deriveUnits
    rw [hcv, hcl]
    rfl
  have hu : (mainRun a e ts).1.disp.units = [] := by
    show (joinAll a e (dispatch a emptyDisp)).units = []
    simp [joinAll, dispatch, emptyDisp, hd]
  refine ⟨hd, hu, ?_, rfl⟩
  show (mainRun a e ts).1.disp.units.map _ = []
  rw [hu]
  rfl

/-- Witness for claim C5 at the invocation giving no options. -/
theorem noop_dispatch_empty_result_witness :
    (parseArgs emptyInvocation).cvJson = none
    ∧ (parseArgs emptyInvocation).clJson = none
    ∧ deriveUnits (parseArgs emptyInvocation) = []
    ∧ (mainRun (parseArgs emptyInvocation) envAllOk tsA).1.disp.units = []
    ∧ dispatchResult (mainRun (parseArgs emptyInvocation) envAllOk tsA).1.disp = []
    ∧ (mainRun (parseArgs emptyInvocation) envAllOk tsA).2 = 0 :=
  ⟨rfl, rfl, noop_dispatch_empty_result (parseArgs emptyInvocation) envAllOk tsA rfl rfl⟩

/-- Claim C6: in every run, main performs the update check strictly
before the dispatch call, and performs join — after which every
submitted Unit is terminal — before the process exits (the trace of
phases is exactly logger init, argument init, update check, dispatch,
join, cleanup, and then the function returns). -/
theorem update_before_dispatch_join_before_exit (a : Args) (e : Env) (ts : Timestamp) :
    (mainRun a e ts).1.events =
      [Event.logInit, Event.argsInit, Event.updateCheck, Event.dispatchCall,
       Event.joinCall, Event.cleanCall]
    ∧ (∀ u ∈ (mainRun a e ts).1.disp.units, u.status.isTerminal = true) := by
  refine ⟨rfl, ?_⟩
  intro u hu
  have h : (mainRun a e ts).1.disp.units = (dispatch a emptyDisp).units.map (joinUnit a e) := rfl
  rw [h] at hu
  obtain ⟨v, hv, hvu⟩ := List.mem_map.1 hu
  rw [← hvu]
  exact joinUnit_terminal a e v

/-- Claim C7: the status of a Compilation Unit only moves forward along
Pending to Running to a terminal state — every allowed transition leaves
a non-terminal state, and is either Pending-to-Running or Running to a
terminal state — and join performs no transition on a Unit that is
already terminal. -/
theorem status_transitions_monotonic (s t : Status) (hst : StatusStep s t)
    (a : Args) (e : Env) (u : CompilationUnit) (hu : u.status.isTerminal = true) :
    s.isTerminal = false
    ∧ ((s = .pending ∧ t = .running) ∨ (s = .running ∧ t.isTerminal = true))
    ∧ joinUnit a e u = u := by
  refine ⟨?_, ?_, ?_⟩
  · cases hst <;> rfl
  · cases hst
    · exact Or.inl ⟨rfl, rfl⟩
    · exact Or.inr ⟨rfl, rfl⟩
    · exact Or.inr ⟨rfl, rfl⟩
    · exact Or.inr ⟨rfl, rfl⟩
  · unfold joinUnit
    rw [if_pos hu]

/-- Witness for claim C7 at the Pending-to-Running transition and a
concrete terminal Unit. -/
theorem status_transitions_monotonic_witness :
    Status.pending.isTerminal = false
    ∧ ((Status.pending = Status.pending ∧ Status.running = Status.running)
       ∨ (Status.pending = Status.running ∧ Status.running.isTerminal = true))
    ∧ joinUnit argsMissing envAllOk unitDone = unitDone :=
  status_transitions_monotonic Status.pending Status.running StatusStep.start
    argsMissing envAllOk unitDone rfl

theorem mapJoin_self (a : Args) (e : Env) (l : List CompilationUnit)
    (h : ∀ u ∈ l, u.status.isTerminal = true) : l.map (joinUnit a e) = l := by
  induction l with
  | nil => rfl
  | cons u l ih =>
    have hu : joinUnit a e u = u := by
      unfold joinUnit
      rw [if_pos (h u (List.mem_cons_self u l))]
    rw [List.map_cons, hu, ih (fun v hv => h v (List.mem_cons_of_mem u hv))]

/-- Claim C8: join is idempotent — on any dispatcher state whose
submitted Units are all already terminal (the empty state included), join
changes nothing, a second join after a first is the identity as well, and
the Dispatch Result is unchanged. -/
theorem join_idempotent (a : Args) (e : Env) (s : DispState)
    (h : ∀ u ∈ s.units, u.status.isTerminal = true) :
    joinAll a e s = s
    ∧ joinAll a e (joinAll a e s) = joinAll a e s
    ∧ dispatchResult (joinAll a e s) = dispatchResult s := by
  have h1 : joinAll a e s = s := by
    unfold joinAll
    rw [mapJoin_self a e s.units h]
  exact ⟨h1, by rw [h1]; exact h1, by rw [h1]⟩

/-- Witness for claim C8 at the dispatcher state with no outstanding
Units. -/
theorem join_idempotent_witness :
    joinAll argsMissing envAllOk emptyDisp = emptyDisp
    ∧ joinAll argsMissing envAllOk (joinAll argsMissing envAllOk emptyDisp) =
        joinAll argsMissing envAllOk emptyDisp
    ∧ dispatchResult (joinAll argsMissing envAllOk emptyDisp) = dispatchResult emptyDisp :=
  join_idempotent argsMissing envAllOk emptyDisp
    (by intro u hu; simp [emptyDisp] at hu)

end JSON2CV
